import Mathlib

/-!
Verification of the Nex workload manager core (`internal/node/workload_mgr.go`)
and the control-API digest sanitizer (`control-api/utils.go`).

The Go code is shallowly embedded: the pool maps (Go `map[string]T`) become
association lists over `String` keys, Go byte strings become `List Nat`,
error/message text becomes `List Char`, the 32-bit atomic counter becomes a
`Nat` reduced modulo `2^32`, and calls into the external collaborators
(process manager, agent client, NATS bus) become explicit environment
records supplying each collaborator's reply.  Every operation is a pure
function from an environment and a pool state to a result, a new pool state
and a record of the observable effects it performed.
-/

set_option autoImplicit false

namespace NexNode

/-- Association-list lookup with `String` keys, mirroring a Go map read:
the first binding for the key wins. -/
def alookup {α : Type} : List (String × α) → String → Option α
  | [], _ => none
  | (k, v) :: t, x => if k = x then some v else alookup t x

/-- Association-list deletion, mirroring Go `delete(m, k)`: every binding
for the key is removed. -/
def aerase {α : Type} (m : List (String × α)) (k : String) : List (String × α) :=
  m.filter (fun p => decide (p.1 ≠ k))

/-- Association-list insertion, mirroring Go `m[k] = v`: the new binding
replaces any previous binding for the key. -/
def ainsert {α : Type} (m : List (String × α)) (k : String) (v : α) : List (String × α) :=
  (k, v) :: aerase m k

/-- Removal of a key from a key set (the model of `delete(w.stopMutex, id)`,
where only the presence of the per-workload mutex matters). -/
def kerase (l : List String) (k : String) : List String :=
  l.filter (fun x => decide (x ≠ k))

/-- An agent client handle.  The only attribute the workload manager reads
from it is `ID()`, which doubles as the workload ID. -/
structure AgentClient where
  id : String
deriving DecidableEq, Repr

/-- The attributes of `agentapi.DeployRequest` that the workload manager
reads: name, type, namespace, byte size and the declared trigger subjects. -/
structure DeployRequest where
  workloadName : String
  workloadType : String
  ns : String
  totalBytes : Int
  triggerSubjects : List String
deriving DecidableEq, Repr

/-- The pool state owned by `WorkloadManager`: the `pendingAgents` and
`activeAgents` maps, the `handshakes` map (workload ID to RFC3339
timestamp), the key set of the `stopMutex` map, and the `subz` map of
per-workload trigger-subscription subjects. -/
structure PoolState where
  pendingAgents : List (String × AgentClient)
  activeAgents : List (String × AgentClient)
  handshakes : List (String × String)
  stopMutexKeys : List String
  subz : List (String × List String)
deriving DecidableEq, Repr

/-- The replies of the external collaborators consulted by `StopWorkload`:
the process manager's `Lookup` (a deploy request, or `nil`, or an error) and
`StopProcess` (an error or success).  Undeploy and per-subscription drain
failures are logged and ignored by the code, so only their occurrence is
modelled. -/
structure StopEnv where
  lookup : String → Except (List Char) (Option DeployRequest)
  stopProcessErr : String → Option (List Char)
  undeployErr : String → Option (List Char)

/-- The result of `StopWorkload`: the propagated `Lookup` error, the nil-mutex
panic that a missing `stopMutex` entry causes (`w.stopMutex[id]` yields the
zero value `nil`, whose `Lock` dereferences a nil pointer), the propagated
`StopProcess` error, or success. -/
inductive StopOutcome
  | errLookup (e : List Char)
  | panicNilMutex
  | errStopProcess (e : List Char)
  | ok
deriving DecidableEq, Repr

/-- The observable side effects of one `StopWorkload` call: the subjects
whose subscriptions were drained, whether the undeploy RPC was issued,
whether the agent-client drain was scheduled, whether `StopProcess` was
invoked, and whether the "workload-stopped" event was published. -/
structure StopEffects where
  drained : List String
  undeployAttempted : Bool
  agentDrainScheduled : Bool
  processStopAttempted : Bool
  publishedStopped : Bool
deriving DecidableEq, Repr

/-- The effects of a `StopWorkload` call that returned before draining. -/
def noStopEffects : StopEffects :=
  { drained := [], undeployAttempted := false, agentDrainScheduled := false,
    processStopAttempted := false, publishedStopped := false }

/-- `WorkloadManager.StopWorkload(id, undeploy)`.  Mirrors the source order:
look the deploy request up via the process manager (propagating the error),
acquire the per-workload stop mutex (a missing entry is a nil-mutex panic),
drain every subscription in `subz[id]` (failures logged and skipped), when
`undeploy` and a request exists schedule an agent drain and issue the
undeploy RPC (failure logged, per the spec contract of the external agent
client), stop the process (propagating the error), and only then delete
`activeAgents[id]` and `stopMutex[id]` and publish "workload-stopped".
`pendingAgents` and `subz` are never written. -/
def stopWorkload (env : StopEnv) (st : PoolState) (id : String) (undeploy : Bool) :
    StopOutcome × PoolState × StopEffects :=
  match env.lookup id with
  | .error e => (.errLookup e, st, noStopEffects)
  | .ok deployRequest =>
    if id ∈ st.stopMutexKeys then
      let subs := (alookup st.subz id).getD []
      let undep := deployRequest.isSome && undeploy
      let eff : StopEffects :=
        { drained := subs, undeployAttempted := undep, agentDrainScheduled := undep,
          processStopAttempted := true, publishedStopped := false }
      match env.stopProcessErr id with
      | some e => (.errStopProcess e, st, eff)
      | none =>
        (.ok,
         { st with activeAgents := aerase st.activeAgents id,
                   stopMutexKeys := kerase st.stopMutexKeys id },
         { eff with publishedStopped := true })
    else
      (.panicNilMutex, st, noStopEffects)

/-- `WorkloadManager.selectRandomAgent`: fail when `pendingAgents` is empty,
otherwise return the first agent the map iteration yields (Go map iteration
order is arbitrary; the model fixes the list order without loss for the
properties proved, which are order-independent). -/
def selectRandomAgent (pending : List (String × AgentClient)) :
    Except (List Char) AgentClient :=
  match pending with
  | [] => .error "no available agent client in pool".data
  | (_, v) :: _ => .ok v

/-- `WorkloadManager.agentHandshakeTimedOut`: delete `pendingAgents[id]` and,
when the `handshakes` map is empty at that moment, cancel the node (the
returned flag records whether `w.cancel()` was invoked).  Entries are only
ever added to `handshakes` (see `agentHandshakeSucceeded`; no code deletes
from it), so emptiness coincides with "no successful handshake has ever
been recorded on the node". -/
def agentHandshakeTimedOut (st : PoolState) (id : String) : PoolState × Bool :=
  ({ st with pendingAgents := aerase st.pendingAgents id }, st.handshakes.isEmpty)

/-- `WorkloadManager.agentHandshakeSucceeded`: record the handshake
timestamp (supplied here as a parameter in place of `time.Now()`). -/
def agentHandshakeSucceeded (st : PoolState) (id timestamp : String) : PoolState :=
  { st with handshakes := ainsert st.handshakes id timestamp }

/-- `WorkloadManager.OnProcessStarted`: construct and start an agent client
for the new process (a start failure, signalled by `startErr`, leaves the
pool untouched), then insert it into `pendingAgents` and create its
`stopMutex` entry. -/
def onProcessStarted (st : PoolState) (id : String) (startErr : Bool) : PoolState :=
  if startErr then st
  else
    { st with pendingAgents := ainsert st.pendingAgents id ⟨id⟩,
              stopMutexKeys := id :: kerase st.stopMutexKeys id }

/-- `WorkloadManager.Stop`: `atomic.AddUint32(&w.closing, 1)` on the 32-bit
`closing` field, delegating teardown to the process manager exactly when the
incremented value reads `1`.  Returns the new counter value, the returned
error and whether teardown was delegated. -/
def stopManager (procErr : Option (List Char)) (closing : Nat) :
    Nat × Option (List Char) × Bool :=
  let c := (closing + 1) % 4294967296
  if c = 1 then (c, procErr, true) else (c, none, false)

/-- The `closing` counter after `n` successive `Stop` calls starting from a
freshly constructed manager (`closing = 0`). -/
def closingAfter : Nat → Nat
  | 0 => 0
  | n + 1 => (closingAfter n + 1) % 4294967296

/-- The agent's reply to a deploy RPC (`agentapi.DeployResponse`): the
acceptance flag and the message dereferenced on rejection. -/
structure DeployResponse where
  accepted : Bool
  message : List Char
deriving DecidableEq, Repr

/-- The replies of the external collaborators consulted by `DeployWorkload`:
the process manager's `PrepareWorkload`, the agent client's deploy RPC, the
NATS `Subscribe` call per trigger subject, and the environment of the
`StopWorkload` calls made on the rollback paths. -/
structure DeployEnv where
  prepareErr : String → Option (List Char)
  agentReply : Except (List Char) DeployResponse
  subscribeErr : String → Option (List Char)
  stopEnv : StopEnv

/-- The pool-mutex and `StopWorkload` events of one `DeployWorkload` call,
in program order.  `DeployWorkload` locks the pool mutex on entry and
unlocks it with `defer`, so the unlock is always the last event. -/
inductive Event
  | lockPool
  | unlockPool
  | callStop (id : String) (undeploy : Bool)
deriving DecidableEq, Repr

/-- Whether an event trace performs a `StopWorkload` call before the pool
mutex is released. -/
def stopBeforeUnlock (tr : List Event) : Bool :=
  (tr.takeWhile (fun e => e != Event.unlockPool)).any
    (fun e => match e with | .callStop _ _ => true | _ => false)

/-- The fixed text `fmt.Errorf` puts before the agent's rejection message. -/
def rejectedText : List Char := "workload rejected by agent: ".data

/-- The error returned when `selectRandomAgent` finds no pending agent. -/
def noAgentText : List Char :=
  "failed to deploy workload: no available agent client in pool".data

/-- The error prefix for a `PrepareWorkload` failure. -/
def prepareFailText : List Char :=
  "failed to prepare agent process for workload deployment: ".data

/-- The error prefix for a deploy-RPC submission failure. -/
def submitFailText : List Char :=
  "failed to submit request for workload deployment: ".data

/-- The trigger-subscription loop of `DeployWorkload`: for each declared
subject, `Subscribe` on the external bus; on failure, call
`StopWorkload(workloadID, true)` and return the raw subscription error; on
success, append the subject's handle to `subz[workloadID]`.  Returns the
error (if any), the resulting pool state, and whether the rollback stop was
invoked. -/
def subscribeAll (env : DeployEnv) (id : String) :
    List String → PoolState → Option (List Char) × PoolState × Bool
  | [], st => (none, st, false)
  | tsub :: rest, st =>
    match env.subscribeErr tsub with
    | some e =>
      let r := stopWorkload env.stopEnv st id true
      (some e, r.2.1, true)
    | none =>
      subscribeAll env id rest
        { st with subz := ainsert st.subz id (((alookup st.subz id).getD []) ++ [tsub]) }

/-- Modelled from the spec: `request.SupportsTriggerSubjects()` is defined
in the agent-api package, outside this repository; per the spec the
subscriptions are installed "if the request declares trigger subjects". -/
def supportsTriggerSubjects (req : DeployRequest) : Bool :=
  !req.triggerSubjects.isEmpty

/-- `WorkloadManager.DeployWorkload`.  The pool mutex is locked on entry and
unlocked by `defer`, hence on every path the trace is bracketed by
`lockPool` first and `unlockPool` last.  Select a pending agent; prepare the
workload; submit the deploy RPC; on `Accepted` move the agent from
`pendingAgents` to `activeAgents` and install the trigger subscriptions
(rolling back via `StopWorkload(id, true)` on an install failure); on
rejection call `StopWorkload(id, false)` and fail with the agent's message.
Returns the result (the workload ID or the error text), the new pool state
and the event trace. -/
def deployWorkload (env : DeployEnv) (st : PoolState) (req : DeployRequest) :
    Except (List Char) String × PoolState × List Event :=
  match selectRandomAgent st.pendingAgents with
  | .error _ => (.error noAgentText, st, [.lockPool, .unlockPool])
  | .ok agentClient =>
    let workloadID := agentClient.id
    match env.prepareErr workloadID with
    | some e => (.error (prepareFailText ++ e), st, [.lockPool, .unlockPool])
    | none =>
      match env.agentReply with
      | .error e => (.error (submitFailText ++ e), st, [.lockPool, .unlockPool])
      | .ok deployResponse =>
        if deployResponse.accepted then
          let st1 : PoolState :=
            { st with activeAgents := ainsert st.activeAgents workloadID agentClient,
                      pendingAgents := aerase st.pendingAgents workloadID }
          if supportsTriggerSubjects req then
            match subscribeAll env workloadID req.triggerSubjects st1 with
            | (some e, st2, _) => (.error e, st2, [.lockPool, .callStop workloadID true, .unlockPool])
            | (none, st2, _) => (.ok workloadID, st2, [.lockPool, .unlockPool])
          else
            (.ok workloadID, st1, [.lockPool, .unlockPool])
        else
          let r := stopWorkload env.stopEnv st workloadID false
          (.error (rejectedText ++ deployResponse.message), r.2.1,
            [.lockPool, .callStop workloadID false, .unlockPool])

/-- Splitting the optional leading sign, as `strconv.ParseInt` does. -/
def splitSign : List Char → Bool × List Char
  | '+' :: t => (false, t)
  | '-' :: t => (true, t)
  | s => (false, s)

/-- Whether a string is syntactically a base-10 integer for
`strconv.ParseInt(s, 10, 64)`: an optional sign followed by one or more
decimal digits (base prefixes and underscores are rejected at base 10). -/
def int64Syntax (s : List Char) : Bool :=
  !(splitSign s).2.isEmpty && (splitSign s).2.all Char.isDigit

/-- The numeric value of a digit string. -/
def digitsToNat (ds : List Char) : Nat :=
  ds.foldl (fun acc c => acc * 10 + (c.toNat - 48)) 0

/-- `strconv.ParseInt(s, 10, 64)`: on a syntax error return `(0, error)`;
on a well-formed number exceeding the signed 64-bit range return the
clamped bound with a range error (the composition of `ParseUint`'s
saturation at `2^64-1` and `ParseInt`'s cutoff check yields exactly this);
otherwise the value with no error.  The `Bool` is `true` when no error
occurred. -/
def goParseInt64 (s : List Char) : Int × Bool :=
  if int64Syntax s then
    let neg := (splitSign s).1
    let n := digitsToNat (splitSign s).2
    if neg then
      if 9223372036854775808 < n then (-9223372036854775808, false) else (-(n : Int), true)
    else
      if 9223372036854775808 ≤ n then (9223372036854775807, false) else ((n : Int), true)
  else (0, false)

/-- The custom runtime-nanoseconds header key. -/
def nexRuntimeNs : String := "x-nex-runtime-ns"

/-- The agent's reply to a trigger RPC: response headers and payload bytes. -/
structure TriggerResp where
  header : List (String × String)
  data : List Nat
deriving DecidableEq, Repr

/-- `Header.Get`: the first value stored under the key, or `""` when the key
is absent (MIME key canonicalization is the identity on the canonical keys
both sides store, so it is not modelled). -/
def headerGet (h : List (String × String)) (k : String) : String :=
  (alookup h k).getD ""

/-- The external replies consumed by one trigger dispatch: the agent
client's `RunTrigger` result (an error, or `nil, nil`, or a response) and
whether `msg.Respond` fails. -/
structure TriggerEnv where
  rpcResult : Except (List Char) (Option TriggerResp)
  respondErr : Option (List Char)

/-- The observable effects of one trigger dispatch: increments of the
failure and success counters (the per-namespace and per-workload-name
attributed `Add(1)` calls mirror the global one and are not duplicated),
the value added to the function-runtime counter, the published events (the
success event carries the parsed runtime), whether `msg.Respond` was
invoked, and the payload actually delivered (`none` when `Respond` failed
or was never reached). -/
structure TriggerEffects where
  failedInc : Nat
  succeededInc : Nat
  runtimeAdded : Int
  publishedFailed : Bool
  publishedSucceeded : Option Int
  respondAttempted : Bool
  responded : Option (List Nat)
deriving DecidableEq, Repr

/-- The closure returned by `WorkloadManager.generateTriggerHandler`, applied
to one inbound message.  On an RPC error: count and publish the failure and
do not reply.  On a non-nil response: parse the `x-nex-runtime-ns` header
with `strconv.ParseInt` (a parse failure only logs a warning and leaves the
value `0`), publish the success event, increment the trigger counters, add
the parsed runtime, then `msg.Respond(resp.Data)` (a respond failure is
logged and recorded on the span only).  On `nil, nil`: nothing happens. -/
def triggerHandler (env : TriggerEnv) : TriggerEffects :=
  match env.rpcResult with
  | .error _ =>
    { failedInc := 1, succeededInc := 0, runtimeAdded := 0, publishedFailed := true,
      publishedSucceeded := none, respondAttempted := false, responded := none }
  | .ok none =>
    { failedInc := 0, succeededInc := 0, runtimeAdded := 0, publishedFailed := false,
      publishedSucceeded := none, respondAttempted := false, responded := none }
  | .ok (some resp) =>
    let runTimeNs64 := (goParseInt64 (headerGet resp.header nexRuntimeNs).data).1
    { failedInc := 0, succeededInc := 1, runtimeAdded := runTimeNs64,
      publishedFailed := false, publishedSucceeded := some runTimeNs64,
      respondAttempted := true,
      responded := match env.respondErr with | none => some resp.data | some _ => none }

end NexNode

namespace ControlApi

/-- The byte at index `i` of the base64url alphabet
`A..Z a..z 0..9 - _` (Go `base64.URLEncoding`). -/
def b64Char (i : Nat) : Nat :=
  if i < 26 then 65 + i
  else if i < 52 then 97 + (i - 26)
  else if i < 62 then 48 + (i - 52)
  else if i = 62 then 45
  else 95

/-- The sextet value of an alphabet byte, `none` for a byte outside the
base64url alphabet (the padding byte `=` included). -/
def b64Val (b : Nat) : Option Nat :=
  if 65 ≤ b ∧ b ≤ 90 then some (b - 65)
  else if 97 ≤ b ∧ b ≤ 122 then some (b - 97 + 26)
  else if 48 ≤ b ∧ b ≤ 57 then some (b - 48 + 52)
  else if b = 45 then some 62
  else if b = 95 then some 63
  else none

/-- `base64.URLEncoding.EncodeToString` on a byte string: each 3-byte group
becomes 4 alphabet bytes; a trailing 1-byte group becomes 2 alphabet bytes
and `==`; a trailing 2-byte group becomes 3 alphabet bytes and `=`
(61 is the byte of the padding character). -/
def b64Encode : List Nat → List Nat
  | b0 :: b1 :: b2 :: rest =>
    b64Char (b0 / 4) :: b64Char ((b0 % 4) * 16 + b1 / 16) ::
      b64Char ((b1 % 16) * 4 + b2 / 64) :: b64Char (b2 % 64) :: b64Encode rest
  | [b0] => [b64Char (b0 / 4), b64Char ((b0 % 4) * 16), 61, 61]
  | [b0, b1] => [b64Char (b0 / 4), b64Char ((b0 % 4) * 16 + b1 / 16), b64Char ((b1 % 16) * 4), 61]
  | [] => []

/-- The quad-by-quad decoding loop of `base64.URLEncoding.DecodeString`
(after newline removal): any incomplete final quad, byte outside the
alphabet, misplaced padding, or data after a padded quad is a corrupt-input
error; `URLEncoding` is non-strict, so unused trailing bits are ignored. -/
def b64DecodeQuads : List Nat → Option (List Nat)
  | [] => some []
  | c0 :: c1 :: c2 :: c3 :: rest =>
    match b64Val c0, b64Val c1 with
    | some s0, some s1 =>
      if c2 = 61 then
        if c3 = 61 then
          if rest = [] then some [s0 * 4 + s1 / 16] else none
        else none
      else
        match b64Val c2 with
        | some s2 =>
          if c3 = 61 then
            if rest = [] then some [s0 * 4 + s1 / 16, (s1 % 16) * 16 + s2 / 4] else none
          else
            match b64Val c3 with
            | some s3 =>
              match b64DecodeQuads rest with
              | some bs =>
                some ((s0 * 4 + s1 / 16) :: ((s1 % 16) * 16 + s2 / 4) :: ((s2 % 4) * 64 + s3) :: bs)
              | none => none
            | none => none
        | none => none
    | _, _ => none
  | _ => none

/-- `base64.URLEncoding.DecodeString`: the decoder ignores carriage returns
(13) and newlines (10) anywhere in its input, then decodes quad by quad. -/
def b64Decode (s : List Nat) : Option (List Nat) :=
  b64DecodeQuads (s.filter (fun c => c != 13 && c != 10))

/-- `strings.Cut(input, "=")` specialised to the one-byte separator `=`
(byte 61): the part before the first `=`, the part after it, or `none` when
the input has no `=`. -/
def goCutEq : List Nat → Option (List Nat × List Nat)
  | [] => none
  | c :: t =>
    if c = 61 then some ([], t)
    else
      match goCutEq t with
      | some (b, a) => some (c :: b, a)
      | none => none

/-- `controlapi.SanitizeNATSDigest`: without a `=` return the input
unchanged; otherwise base64url-decode the part after the first `=`,
returning the decoded bytes on success and that part unchanged on a decode
error. -/
def sanitizeNATSDigest (input : List Nat) : List Nat :=
  match goCutEq input with
  | none => input
  | some (_, after) =>
    match b64Decode after with
    | none => after
    | some h => h

end ControlApi

namespace NexNode

/-- A deploy request fixture. -/
def req0 : DeployRequest :=
  { workloadName := "svc", workloadType := "native", ns := "default",
    totalBytes := 1024, triggerSubjects := [] }

/-- A stop environment in which the process manager knows the workload and
every external call succeeds. -/
def stopEnv0 : StopEnv :=
  { lookup := fun _ => .ok (some req0),
    stopProcessErr := fun _ => none,
    undeployErr := fun _ => none }

/-- The pool state right after `OnProcessStarted("w1")` and a successful
handshake-free preparation: the agent is pending and owns a stop mutex. -/
def stC1 : PoolState :=
  { pendingAgents := [("w1", ⟨"w1"⟩)], activeAgents := [], handshakes := [],
    stopMutexKeys := ["w1"], subz := [] }

/-- A deploy environment whose selected agent rejects the deployment with
message "oom". -/
def envRejected : DeployEnv :=
  { prepareErr := fun _ => none,
    agentReply := .ok { accepted := false, message := "oom".data },
    subscribeErr := fun _ => none,
    stopEnv := stopEnv0 }

/-- A trigger response carrying a well-formed runtime header. -/
def resp42 : TriggerResp :=
  { header := [("x-nex-runtime-ns", "42000")], data := [112, 111, 110, 103] }

/-- A trigger dispatch whose RPC succeeds but whose reply delivery fails. -/
def envT5 : TriggerEnv :=
  { rpcResult := .ok (some resp42), respondErr := some "timeout".data }

/-- A trigger response with no `x-nex-runtime-ns` header. -/
def respNoHeader : TriggerResp :=
  { header := [("content-type", "text/plain")], data := [1, 2] }

/-- A trigger dispatch whose RPC succeeds, whose response lacks a numeric
runtime header, and whose reply delivery succeeds. -/
def envT9 : TriggerEnv :=
  { rpcResult := .ok (some respNoHeader), respondErr := none }

/-- Containment of `m` in the text `s`, the model of Go error-text
containment (`strings.Contains`). -/
def containsText (s m : List Char) : Prop :=
  ∃ f b, s = f ++ (m ++ b)

end NexNode

namespace NexNode

theorem alookup_aerase {α : Type} (m : List (String × α)) (k : String) :
    alookup (aerase m k) k = none := by
  induction m with
  | nil => rfl
  | cons p t ih =>
    by_cases h : p.1 = k
    · simpa [aerase, List.filter_cons, h] using ih
    · simpa [aerase, List.filter_cons, h, alookup] using ih

theorem not_mem_kerase (l : List String) (k : String) : k ∉ kerase l k := by
  simp [kerase]

theorem stopWorkload_pending_eq (env : StopEnv) (st : PoolState) (id : String) (u : Bool) :
    ((stopWorkload env st id u).2.1).pendingAgents = st.pendingAgents := by
  unfold stopWorkload
  rcases env.lookup id with e | dr
  · rfl
  · by_cases hm : id ∈ st.stopMutexKeys
    · simp only [if_pos hm]
      rcases env.stopProcessErr id with _ | e <;> rfl
    · simp only [if_neg hm]

theorem stopWorkload_active_none (env : StopEnv) (st : PoolState) (id : String) (u : Bool)
    (h : alookup st.activeAgents id = none) :
    alookup ((stopWorkload env st id u).2.1).activeAgents id = none := by
  unfold stopWorkload
  rcases env.lookup id with e | dr
  · exact h
  · by_cases hm : id ∈ st.stopMutexKeys
    · simp only [if_pos hm]
      rcases env.stopProcessErr id with _ | e
      · exact alookup_aerase st.activeAgents id
      · exact h
    · simp only [if_neg hm]; exact h

/-- Claim C1, amended: after `StopWorkload(w, undeploy)` returns
successfully, `w` is not a key of `active`, `stopMutex` has no entry for
`w`, and drain was invoked on every subscription recorded in `subz[w]`
before the call; however `pending` is not modified by `StopWorkload`, so
`w` remains a key of `pending` exactly when it was one before the call. -/
theorem stopWorkload_success_post (env : StopEnv) (st : PoolState) (id : String) (u : Bool)
    (hok : (stopWorkload env st id u).1 = StopOutcome.ok) :
    alookup ((stopWorkload env st id u).2.1).activeAgents id = none ∧
    id ∉ ((stopWorkload env st id u).2.1).stopMutexKeys ∧
    ((stopWorkload env st id u).2.2).drained = (alookup st.subz id).getD [] ∧
    ((stopWorkload env st id u).2.1).pendingAgents = st.pendingAgents := by
  unfold stopWorkload at hok ⊢
  cases hl : env.lookup id with
  | error e => simp [hl] at hok
  | ok dr =>
    simp only [hl] at hok ⊢
    by_cases hm : id ∈ st.stopMutexKeys
    · simp only [hm, if_true] at hok ⊢
      cases hp : env.stopProcessErr id with
      | some e => simp [hp] at hok
      | none =>
        simp only [hp]
        exact ⟨alookup_aerase st.activeAgents id, not_mem_kerase st.stopMutexKeys id,
          by trivial, by trivial⟩
    · simp [hm] at hok

/-- Witness for C1's amended theorem: a concrete successful stop. -/
theorem stopWorkload_success_post_witness :
    (stopWorkload stopEnv0 stC1 "w1" false).1 = StopOutcome.ok ∧
    (alookup ((stopWorkload stopEnv0 stC1 "w1" false).2.1).activeAgents "w1" = none ∧
     "w1" ∉ ((stopWorkload stopEnv0 stC1 "w1" false).2.1).stopMutexKeys ∧
     ((stopWorkload stopEnv0 stC1 "w1" false).2.2).drained =
       (alookup stC1.subz "w1").getD [] ∧
     ((stopWorkload stopEnv0 stC1 "w1" false).2.1).pendingAgents = stC1.pendingAgents) :=
  ⟨rfl, stopWorkload_success_post stopEnv0 stC1 "w1" false rfl⟩

/-- Counterexample to claim C1 as stated: from the (reachable) state left
by `OnProcessStarted("w1")` followed by a prepared-then-rejected
deployment, `StopWorkload("w1", false)` returns successfully and yet `"w1"`
is still a key of `pending` afterwards. -/
theorem stopWorkload_pending_counterexample :
    (stopWorkload stopEnv0 stC1 "w1" false).1 = StopOutcome.ok ∧
    alookup ((stopWorkload stopEnv0 stC1 "w1" false).2.1).pendingAgents "w1" =
      some ⟨"w1"⟩ := by
  constructor <;> rfl

/-- Claim C4, confirmed: the handshake-timeout callback removes the
workload from `pending`, and it triggers node cancellation exactly when the
`handshakes` map is empty at the moment of the call (entries are only ever
added to `handshakes`, so emptiness means no successful handshake was ever
recorded on the node). -/
theorem handshakeTimeout_spec (st : PoolState) (id : String) :
    alookup ((agentHandshakeTimedOut st id).1).pendingAgents id = none ∧
    ((agentHandshakeTimedOut st id).2 = true ↔ st.handshakes = []) := by
  refine ⟨alookup_aerase st.pendingAgents id, ?_⟩
  cases h : st.handshakes <;> simp [agentHandshakeTimedOut, h]

/-- Claim C8, confirmed: when `stopMutex` has no entry for `id` (for
example after a first successful stop deleted it) and the process-manager
lookup succeeds, `StopWorkload` reads the nil zero value out of the mutex
map and panics on locking it. -/
theorem stopWorkload_missing_mutex_panics (env : StopEnv) (st : PoolState) (id : String)
    (u : Bool) (r : Option DeployRequest)
    (hl : env.lookup id = .ok r) (hm : id ∉ st.stopMutexKeys) :
    (stopWorkload env st id u).1 = StopOutcome.panicNilMutex := by
  unfold stopWorkload
  rw [hl]
  simp [hm]

/-- Witness for C8: the second stop of "w1" right after a first successful
stop removed its mutex entry panics. -/
theorem stopWorkload_missing_mutex_panics_witness :
    (stopWorkload stopEnv0 ((stopWorkload stopEnv0 stC1 "w1" false).2.1) "w1" false).1 =
      StopOutcome.panicNilMutex :=
  stopWorkload_missing_mutex_panics stopEnv0 _ "w1" false (some req0) rfl (by decide)

/-- Claim C2: in the rejected-deploy execution, `DeployWorkload` performs
the `StopWorkload` call strictly before the deferred pool-mutex unlock, so
`StopWorkload` is entered by a thread that still holds the pool mutex —
the release-before-stop discipline the specification imposes on the
rollback paths does not hold in the code. -/
theorem deploy_rollback_holds_pool_mutex :
    (deployWorkload envRejected stC1 req0).2.2 =
      [Event.lockPool, Event.callStop "w1" false, Event.unlockPool] ∧
    stopBeforeUnlock (deployWorkload envRejected stC1 req0).2.2 = true := by
  constructor <;> rfl

/-- Claim C3, amended: when the selected agent replies `Accepted=false`
with message `m`, `DeployWorkload` invokes `StopWorkload(w, false)` and
returns an error whose text contains `m`, and afterwards `w` is not a key
of `active` (it was pending, hence not active before the call); however
`w` remains a key of `pending`, because `StopWorkload` never removes
pending entries. -/
theorem deploy_rejected_spec (env : DeployEnv) (st : PoolState) (req : DeployRequest)
    (ag : AgentClient) (m : List Char)
    (hsel : selectRandomAgent st.pendingAgents = .ok ag)
    (hprep : env.prepareErr ag.id = none)
    (hreply : env.agentReply = .ok { accepted := false, message := m })
    (hact : alookup st.activeAgents ag.id = none)
    (hpend : alookup st.pendingAgents ag.id = some ag) :
    (deployWorkload env st req).2.2 =
      [Event.lockPool, Event.callStop ag.id false, Event.unlockPool] ∧
    (∃ e, (deployWorkload env st req).1 = .error e ∧ containsText e m) ∧
    alookup ((deployWorkload env st req).2.1).activeAgents ag.id = none ∧
    alookup ((deployWorkload env st req).2.1).pendingAgents ag.id = some ag := by
  unfold deployWorkload
  simp only [hsel, hprep, hreply, Bool.false_eq_true, if_false]
  refine ⟨by trivial, ⟨rejectedText ++ m, by trivial, rejectedText, [], by simp⟩,
    stopWorkload_active_none env.stopEnv st ag.id false hact, ?_⟩
  rw [stopWorkload_pending_eq]
  exact hpend

/-- Witness for C3's amended theorem: the concrete rejected deployment. -/
theorem deploy_rejected_spec_witness :
    (deployWorkload envRejected stC1 req0).2.2 =
      [Event.lockPool, Event.callStop "w1" false, Event.unlockPool] ∧
    (∃ e, (deployWorkload envRejected stC1 req0).1 = .error e ∧
      containsText e "oom".data) ∧
    alookup ((deployWorkload envRejected stC1 req0).2.1).activeAgents "w1" = none ∧
    alookup ((deployWorkload envRejected stC1 req0).2.1).pendingAgents "w1" =
      some ⟨"w1"⟩ :=
  deploy_rejected_spec envRejected stC1 req0 ⟨"w1"⟩ "oom".data rfl rfl rfl rfl rfl

/-- Counterexample to claim C3 as stated: in the concrete rejected
deployment the error does contain the agent's message, yet the workload ID
is still a key of `pending` afterwards. -/
theorem deploy_rejected_counterexample :
    (deployWorkload envRejected stC1 req0).1 =
      .error (rejectedText ++ "oom".data) ∧
    alookup ((deployWorkload envRejected stC1 req0).2.1).pendingAgents "w1" =
      some ⟨"w1"⟩ := by
  constructor <;> rfl

/-- Claim C5, amended: the trigger-success counter is incremented exactly
when the agent RPC succeeded with a non-nil response, equivalently exactly
when the dispatcher went on to invoke `msg.Respond`; the increment happens
before the reply is sent, so it occurs even when reply delivery fails. -/
theorem triggerCounter_iff_rpcSuccess (env : TriggerEnv) :
    ((triggerHandler env).succeededInc = 1 ↔ (∃ r, env.rpcResult = .ok (some r))) ∧
    ((triggerHandler env).succeededInc = 1 ↔ (triggerHandler env).respondAttempted = true) := by
  rcases env with ⟨rpc, re⟩
  rcases rpc with e | r
  · simp [triggerHandler]
  · rcases r with _ | resp <;> simp [triggerHandler]

/-- Counterexample to claim C5 as stated: an RPC success whose reply
delivery fails still increments the trigger-success counter, although no
reply was delivered on the request. -/
theorem triggerCounter_counterexample :
    (triggerHandler envT5).succeededInc = 1 ∧ (triggerHandler envT5).responded = none := by
  constructor <;> rfl

/-- Claim C6, confirmed: `selectRandomAgent` fails with the no-available
error exactly when `pending` is empty, and on a non-empty `pending` it
returns, without error, one of the map's values. -/
theorem selectRandomAgent_spec (p : List (String × AgentClient)) :
    ((∃ e, selectRandomAgent p = .error e) ↔ p = []) ∧
    (∀ c, selectRandomAgent p = .ok c → c ∈ p.map Prod.snd) ∧
    (p ≠ [] → ∃ c, selectRandomAgent p = .ok c) := by
  rcases p with _ | ⟨⟨k, v⟩, t⟩ <;> simp [selectRandomAgent]

/-- Witness for C6: a singleton pending pool yields its only client. -/
theorem selectRandomAgent_spec_witness :
    ∃ c, selectRandomAgent [("w1", ⟨"w1"⟩)] = .ok c :=
  (selectRandomAgent_spec [("w1", ⟨"w1"⟩)]).2.2 (List.cons_ne_nil _ _)

theorem closingAfter_eq (n : Nat) : closingAfter n = n % 4294967296 := by
  induction n with
  | zero => rfl
  | succ k ih =>
    rw [closingAfter, ih]
    omega

/-- Claim C7, amended: the first `Stop` call delegates teardown to the
process manager and surfaces its error, and every later call up to the
2^32-th performs no teardown and returns success; the latch is a wrapping
32-bit counter rather than a true one-shot, so the pattern repeats with
period 2^32. -/
theorem stopManager_first_and_bounded (e : Option (List Char)) (n : Nat)
    (h2 : 2 ≤ n) (h32 : n ≤ 4294967296) :
    stopManager e 0 = (1, e, true) ∧
    (stopManager e (closingAfter (n - 1))).2 = (none, false) := by
  constructor
  · rfl
  · rw [closingAfter_eq]
    unfold stopManager
    have hne : ¬((n - 1) % 4294967296 + 1) % 4294967296 = 1 := by omega
    simp only [if_neg hne]

/-- Witness for C7's amended theorem: the second call is a no-op. -/
theorem stopManager_first_and_bounded_witness :
    stopManager (some "boom".data) 0 = (1, some "boom".data, true) ∧
    (stopManager (some "boom".data) (closingAfter 1)).2 = (none, false) :=
  stopManager_first_and_bounded (some "boom".data) 2 (by omega) (by omega)

/-- Counterexample to claim C7 as stated: after 2^32 calls the 32-bit
`closing` counter has wrapped to zero, so the next call — a subsequent
call, not the first — delegates teardown to the process manager again. -/
theorem stopManager_latch_wraparound :
    (stopManager none (closingAfter 4294967296)).2.2 = true := by
  have h : closingAfter 4294967296 = 0 := by
    rw [closingAfter_eq]
  rw [h]
  rfl

/-- Claim C9, confirmed: when the agent RPC succeeds but the
`x-nex-runtime-ns` header is missing or not a well-formed integer, the
handler still publishes the function-exec-succeeded event (with runtime 0),
still increments the trigger counter, adds exactly 0 to the
function-runtime counter, and still invokes `msg.Respond` with the response
payload. -/
theorem trigger_invalid_runtime_header (env : TriggerEnv) (resp : TriggerResp)
    (hr : env.rpcResult = .ok (some resp))
    (hs : int64Syntax (headerGet resp.header nexRuntimeNs).data = false) :
    (triggerHandler env).publishedSucceeded = some 0 ∧
    (triggerHandler env).succeededInc = 1 ∧
    (triggerHandler env).runtimeAdded = 0 ∧
    (triggerHandler env).respondAttempted = true ∧
    (env.respondErr = none → (triggerHandler env).responded = some resp.data) := by
  have hp : goParseInt64 (headerGet resp.header nexRuntimeNs).data = (0, false) := by
    unfold goParseInt64
    rw [hs]
    rfl
  unfold triggerHandler
  simp only [hr, hp]
  exact ⟨by trivial, by trivial, by trivial, by trivial, fun h => by simp [h]⟩

/-- Witness for C9: a response with no runtime header at all. -/
theorem trigger_invalid_runtime_header_witness :
    (triggerHandler envT9).publishedSucceeded = some 0 ∧
    (triggerHandler envT9).succeededInc = 1 ∧
    (triggerHandler envT9).runtimeAdded = 0 ∧
    (triggerHandler envT9).respondAttempted = true ∧
    (envT9.respondErr = none → (triggerHandler envT9).responded = some respNoHeader.data) :=
  trigger_invalid_runtime_header envT9 respNoHeader rfl (by decide)

end NexNode

namespace ControlApi

theorem b64Val_b64Char : ∀ i : Nat, i < 64 → b64Val (b64Char i) = some i := by decide

theorem b64Char_ne_pad : ∀ i : Nat, i < 64 → b64Char i ≠ 61 := by decide

theorem b64Char_ge (i : Nat) : 45 ≤ b64Char i := by
  unfold b64Char
  repeat' split
  all_goals omega

theorem b64Encode_mem_ge (l : List Nat) : ∀ a ∈ b64Encode l, 45 ≤ a := by
  induction l using b64Encode.induct with
  | case1 b0 b1 b2 rest ih =>
    intro a ha
    simp only [b64Encode, List.mem_cons] at ha
    rcases ha with rfl | rfl | rfl | rfl | ha
    · exact b64Char_ge _
    · exact b64Char_ge _
    · exact b64Char_ge _
    · exact b64Char_ge _
    · exact ih a ha
  | case2 b0 =>
    intro a ha
    simp only [b64Encode, List.mem_cons] at ha
    rcases ha with rfl | rfl | rfl | rfl | ha
    · exact b64Char_ge _
    · exact b64Char_ge _
    · omega
    · omega
    · simp at ha
  | case3 b0 b1 =>
    intro a ha
    simp only [b64Encode, List.mem_cons] at ha
    rcases ha with rfl | rfl | rfl | rfl | ha
    · exact b64Char_ge _
    · exact b64Char_ge _
    · exact b64Char_ge _
    · omega
    · simp at ha
  | case4 => intro a ha; simp [b64Encode] at ha

theorem b64Encode_filter (l : List Nat) :
    (b64Encode l).filter (fun c => c != 13 && c != 10) = b64Encode l := by
  rw [List.filter_eq_self]
  intro a ha
  have h := b64Encode_mem_ge l a ha
  simp only [Bool.and_eq_true, bne_iff_ne]
  omega

theorem b64_roundtrip (l : List Nat) :
    (∀ b ∈ l, b < 256) → b64DecodeQuads (b64Encode l) = some l := by
  induction l using b64Encode.induct with
  | case1 b0 b1 b2 rest ih =>
    intro hb
    have h0 : b0 < 256 := hb b0 (by simp)
    have h1 : b1 < 256 := hb b1 (by simp)
    have h2 : b2 < 256 := hb b2 (by simp)
    have hrest := ih (fun b hbm => hb b (by simp [hbm]))
    have e0 := b64Val_b64Char (b0 / 4) (by omega)
    have e1 := b64Val_b64Char ((b0 % 4) * 16 + b1 / 16) (by omega)
    have e2 := b64Val_b64Char ((b1 % 16) * 4 + b2 / 64) (by omega)
    have e3 := b64Val_b64Char (b2 % 64) (by omega)
    have n2 := b64Char_ne_pad ((b1 % 16) * 4 + b2 / 64) (by omega)
    have n3 := b64Char_ne_pad (b2 % 64) (by omega)
    simp [b64Encode, b64DecodeQuads, e0, e1, e2, e3, n2, n3, hrest]
    omega
  | case2 b0 =>
    intro hb
    have h0 : b0 < 256 := hb b0 (by simp)
    have e0 := b64Val_b64Char (b0 / 4) (by omega)
    have e1 := b64Val_b64Char ((b0 % 4) * 16) (by omega)
    simp [b64Encode, b64DecodeQuads, e0, e1]
    omega
  | case3 b0 b1 =>
    intro hb
    have h0 : b0 < 256 := hb b0 (by simp)
    have h1 : b1 < 256 := hb b1 (by simp)
    have e0 := b64Val_b64Char (b0 / 4) (by omega)
    have e1 := b64Val_b64Char ((b0 % 4) * 16 + b1 / 16) (by omega)
    have e2 := b64Val_b64Char ((b1 % 16) * 4) (by omega)
    have n2 := b64Char_ne_pad ((b1 % 16) * 4) (by omega)
    simp [b64Encode, b64DecodeQuads, e0, e1, e2, n2]
    omega
  | case4 =>
    intro hb
    rfl

theorem b64Decode_encode (l : List Nat) (hb : ∀ b ∈ l, b < 256) :
    b64Decode (b64Encode l) = some l := by
  unfold b64Decode
  rw [b64Encode_filter, b64_roundtrip l hb]

theorem goCutEq_not_mem (s : List Nat) (h : (61 : Nat) ∉ s) : goCutEq s = none := by
  induction s with
  | nil => rfl
  | cons c t ih =>
    simp only [List.mem_cons, not_or] at h
    unfold goCutEq
    rw [if_neg (fun hc => h.1 hc.symm), ih h.2]

theorem goCutEq_append (p x : List Nat) (h : (61 : Nat) ∉ p) :
    goCutEq (p ++ 61 :: x) = some (p, x) := by
  induction p with
  | nil => simp [goCutEq]
  | cons c t ih =>
    simp only [List.mem_cons, not_or] at h
    simp only [List.cons_append]
    unfold goCutEq
    rw [if_neg (fun hc => h.1 hc.symm), ih h.2]

/-- Claim C10, confirmed: `SanitizeNATSDigest` returns an input with no `=`
(byte 61) unchanged; on an input of the form `p ++ "=" ++ base64url(h)`
with `p` free of `=` it returns the decoded bytes `h`; and on an input
whose part after the first `=` is not valid padded base64url it returns
that part unchanged. -/
theorem sanitizeNATSDigest_spec :
    (∀ s : List Nat, (61 : Nat) ∉ s → sanitizeNATSDigest s = s) ∧
    (∀ p h : List Nat, (61 : Nat) ∉ p → (∀ b ∈ h, b < 256) →
      sanitizeNATSDigest (p ++ 61 :: b64Encode h) = h) ∧
    (∀ s b a : List Nat, goCutEq s = some (b, a) → b64Decode a = none →
      sanitizeNATSDigest s = a) := by
  refine ⟨?_, ?_, ?_⟩
  · intro s h
    unfold sanitizeNATSDigest
    rw [goCutEq_not_mem s h]
  · intro p h hp hb
    unfold sanitizeNATSDigest
    simp only [goCutEq_append p (b64Encode h) hp, b64Decode_encode h hb]
  · intro s b a h1 h2
    unfold sanitizeNATSDigest
    simp only [h1, h2]

/-- Witness for C10: a digest-free input, the digest `sha-256=<base64url>`
of the bytes `[1, 2, 3]`, and an input whose part after `=` is not valid
base64url. -/
theorem sanitizeNATSDigest_spec_witness :
    sanitizeNATSDigest [104, 105] = [104, 105] ∧
    sanitizeNATSDigest ([83, 72, 65] ++ 61 :: b64Encode [1, 2, 3]) = [1, 2, 3] ∧
    sanitizeNATSDigest [61, 33] = [33] :=
  ⟨sanitizeNATSDigest_spec.1 [104, 105] (by decide),
   sanitizeNATSDigest_spec.2.1 [83, 72, 65] [1, 2, 3] (by decide) (by decide),
   sanitizeNATSDigest_spec.2.2 [61, 33] [] [33] (by decide) (by decide)⟩

end ControlApi

namespace NexNode

/-- Witness for C4: a handshake timeout on the fresh pool (no handshake
ever recorded) removes the workload from pending and cancels the node. -/
theorem handshakeTimeout_spec_witness :
    alookup ((agentHandshakeTimedOut stC1 "w1").1).pendingAgents "w1" = none ∧
    ((agentHandshakeTimedOut stC1 "w1").2 = true ↔ stC1.handshakes = []) :=
  handshakeTimeout_spec stC1 "w1"

/-- Witness for C5's amended theorem, at the failed-reply environment. -/
theorem triggerCounter_iff_rpcSuccess_witness :
    ((triggerHandler envT5).succeededInc = 1 ↔ (∃ r, envT5.rpcResult = .ok (some r))) ∧
    ((triggerHandler envT5).succeededInc = 1 ↔
      (triggerHandler envT5).respondAttempted = true) :=
  triggerCounter_iff_rpcSuccess envT5

end NexNode
